import Mathlib

/-!
# Verification of the call-panel playback-state synchronization core

Shallow embedding of the repository's `VideoStateService` (the playback-state
store with its authority gate) and the `VideoPlayer` component (player
surfaces: media-source resolution, ready bootstrap, the 250 ms telemetry tick,
ended-recovery, destruction flush, and `syncWith`).

Conventions of the embedding:
- JavaScript `Date.now()` is an explicit `now : Nat` parameter threaded to
  every operation that stamps a timestamp.
- `Partial<VideoState>` becomes `VideoStatePatch`, a record of `Option` fields;
  object-spread merge `{...current, ...patch, lastUpdate: Date.now()}` becomes
  `mergeState`.
- `BehaviorSubject.next` is modelled by appending the published state to an
  `emitted` log, so "nothing is published" is the log being unchanged.
- JavaScript truthiness of `string | null` values (both `null` and `""` are
  falsy) is modelled by `jsTruthy`.
- Engine calls with side effects (`seekTo`, `playVideo`, `pauseVideo`, `mute`)
  become an emitted list of `EngineCmd`; `setTimeout` delays are recorded as
  the millisecond delay paired with each command. Telemetry reads
  (`getCurrentTime`, `getPlayerState`) are pure reads of an `Engine` record.
-/

/-- `VideoState` from the service: the shared playback snapshot. -/
structure VideoState where
  currentTime : Int
  playerState : Int
  isPlaying : Bool
  lastUpdate : Nat
  deriving DecidableEq, Repr

/-- `Partial<VideoState>`: each field optionally present.  The source's
`ngOnDestroy` passes an explicit `lastUpdate` in its partial, so the patch
carries that field too; the merge always overrides it with `Date.now()`. -/
structure VideoStatePatch where
  currentTime : Option Int := none
  playerState : Option Int := none
  isPlaying : Option Bool := none
  lastUpdate : Option Nat := none
  deriving DecidableEq, Repr

/-- The object-spread merge `{...currentState, ...state, lastUpdate: Date.now()}`:
fields named in the patch win, unnamed fields keep their current value, and
`lastUpdate` is unconditionally stamped with `now` (even if the patch names it). -/
def mergeState (s : VideoState) (p : VideoStatePatch) (now : Nat) : VideoState :=
  { currentTime := p.currentTime.getD s.currentTime
    playerState := p.playerState.getD s.playerState
    isPlaying := p.isPlaying.getD s.isPlaying
    lastUpdate := now }

/-- JavaScript truthiness of a `string | null` value: `null` and `""` are falsy. -/
def jsTruthy : Option String → Bool
  | none => false
  | some s => s != ""

/-- The mutable state of `VideoStateService`: the `BehaviorSubject`'s current
value, the authority slot `activePlayerId : string | null`, and the log of
states published to subscribers. -/
structure StoreState where
  videoState : VideoState
  activePlayerId : Option String
  emitted : List VideoState
  deriving DecidableEq, Repr

/-- The gate condition of `updateState`:
`if (this.activePlayerId && this.activePlayerId !== playerId) return;`. -/
def authorityBlocks : Option String → String → Bool
  | none, _ => false
  | some a, playerId => a != "" && a != playerId

/-- `VideoStateService.updateState(state, playerId)`: a silent no-op when the
authority gate blocks, otherwise merge, stamp `lastUpdate := now`, publish. -/
def updateState (st : StoreState) (p : VideoStatePatch) (playerId : String)
    (now : Nat) : StoreState :=
  if authorityBlocks st.activePlayerId playerId then st
  else
    { st with
      videoState := mergeState st.videoState p now
      emitted := st.emitted ++ [mergeState st.videoState p now] }

/-- `VideoStateService.setActivePlayer(playerId)`: unconditional overwrite of
the single authority slot. -/
def setActivePlayer (st : StoreState) (playerId : String) : StoreState :=
  { st with activePlayerId := some playerId }

/-- `VideoStateService.forceUpdateState(state)`: merge, stamp, publish,
ignoring the authority slot entirely. -/
def forceUpdateState (st : StoreState) (p : VideoStatePatch) (now : Nat) :
    StoreState :=
  { st with
    videoState := mergeState st.videoState p now
    emitted := st.emitted ++ [mergeState st.videoState p now] }

/-- `VideoStateService.saveCurrentTime(time, playerId)`. -/
def saveCurrentTime (st : StoreState) (time : Int) (playerId : String)
    (now : Nat) : StoreState :=
  updateState st { currentTime := some time } playerId now

/-- `VideoStateService.savePlayerState(playerState, isPlaying, playerId)`. -/
def savePlayerState (st : StoreState) (playerState : Int) (isPlaying : Bool)
    (playerId : String) (now : Nat) : StoreState :=
  updateState st { playerState := some playerState, isPlaying := some isPlaying }
    playerId now

/-- `VideoStateService.getCurrentState()`. -/
def getCurrentState (st : StoreState) : VideoState :=
  st.videoState

/-- The service's `initialState` (with `Date.now()` made explicit), and the
`BehaviorSubject` seeded with it. -/
def initialState (now : Nat) : VideoState :=
  { currentTime := 0, playerState := -1, isPlaying := false, lastUpdate := now }

/-- The store as constructed: subject holds `initialState`, authority slot
`null`, and the `BehaviorSubject` has emitted its seed value. -/
def initialStore (now : Nat) : StoreState :=
  { videoState := initialState now
    activePlayerId := none
    emitted := [initialState now] }

/-- Helper: a blocked `updateState` call returns the store unchanged. -/
theorem updateState_of_blocked (st : StoreState) (p : VideoStatePatch)
    (playerId : String) (now : Nat)
    (h : authorityBlocks st.activePlayerId playerId = true) :
    updateState st p playerId now = st := by
  simp [updateState, h]

/-- Helper: an unblocked `updateState` call merges and publishes. -/
theorem updateState_of_open (st : StoreState) (p : VideoStatePatch)
    (playerId : String) (now : Nat)
    (h : authorityBlocks st.activePlayerId playerId = false) :
    updateState st p playerId now =
      { st with
        videoState := mergeState st.videoState p now
        emitted := st.emitted ++ [mergeState st.videoState p now] } := by
  simp [updateState, h]

/-- Helper: no store write path ever touches the authority slot except
`setActivePlayer`. -/
theorem updateState_activePlayerId (st : StoreState) (p : VideoStatePatch)
    (playerId : String) (now : Nat) :
    (updateState st p playerId now).activePlayerId = st.activePlayerId := by
  unfold updateState
  split <;> rfl

theorem forceUpdateState_activePlayerId (st : StoreState) (p : VideoStatePatch)
    (now : Nat) :
    (forceUpdateState st p now).activePlayerId = st.activePlayerId := by
  rfl

/-- C1: `updateState(partial, id)` is a silent no-op (same snapshot, same
`lastUpdate`, nothing published) exactly when the authority token is a
non-empty string different from `id`; when the token equals `id` or is empty
(`null` or `""`), it merges the partial over the current state, stamps
`lastUpdate := now`, and publishes the merged state. -/
theorem updateState_authority_gate (st : StoreState) (p : VideoStatePatch)
    (playerId : String) (now : Nat) :
    ((∃ a, st.activePlayerId = some a ∧ a ≠ "" ∧ a ≠ playerId) →
      updateState st p playerId now = st) ∧
    ((st.activePlayerId = none ∨ st.activePlayerId = some "" ∨
        st.activePlayerId = some playerId) →
      updateState st p playerId now =
        { st with
          videoState := mergeState st.videoState p now
          emitted := st.emitted ++ [mergeState st.videoState p now] }) := by
  constructor
  · rintro ⟨a, ha, hne, hnid⟩
    apply updateState_of_blocked
    simp [authorityBlocks, ha, hne, hnid]
  · rintro (h | h | h) <;>
      { apply updateState_of_open; simp [authorityBlocks, h] }

/-- Witness for C1 at concrete stores: a blocked call from `"b"` against token
`"a"` is the identity; a call from the token holder `"b"` merges and publishes. -/
theorem updateState_authority_gate_witness :
    updateState
        { videoState := initialState 0, activePlayerId := some "a", emitted := [] }
        { isPlaying := some true } "b" 5 =
      { videoState := initialState 0, activePlayerId := some "a", emitted := [] } ∧
    updateState
        { videoState := initialState 0, activePlayerId := some "b", emitted := [] }
        { isPlaying := some true } "b" 5 =
      { videoState := mergeState (initialState 0) { isPlaying := some true } 5
        activePlayerId := some "b"
        emitted := [mergeState (initialState 0) { isPlaying := some true } 5] } :=
  ⟨(updateState_authority_gate
      { videoState := initialState 0, activePlayerId := some "a", emitted := [] }
      { isPlaying := some true } "b" 5).1 ⟨"a", rfl, by decide, by decide⟩,
   (updateState_authority_gate
      { videoState := initialState 0, activePlayerId := some "b", emitted := [] }
      { isPlaying := some true } "b" 5).2 (Or.inr (Or.inr rfl))⟩

/-- C2: every successful write — an `updateState` that passes the gate, or any
`forceUpdateState` — takes each field named in the patch from the patch, keeps
every unnamed field, and stamps a `lastUpdate` strictly greater than the
previous one (given that the clock has advanced past the stored timestamp). -/
theorem successful_write_merge_lastUpdate (st : StoreState) (p : VideoStatePatch)
    (playerId : String) (now : Nat)
    (hnow : st.videoState.lastUpdate < now) :
    (authorityBlocks st.activePlayerId playerId = false →
      (updateState st p playerId now).videoState.currentTime =
          p.currentTime.getD st.videoState.currentTime ∧
      (updateState st p playerId now).videoState.playerState =
          p.playerState.getD st.videoState.playerState ∧
      (updateState st p playerId now).videoState.isPlaying =
          p.isPlaying.getD st.videoState.isPlaying ∧
      st.videoState.lastUpdate < (updateState st p playerId now).videoState.lastUpdate) ∧
    ((forceUpdateState st p now).videoState.currentTime =
        p.currentTime.getD st.videoState.currentTime ∧
      (forceUpdateState st p now).videoState.playerState =
          p.playerState.getD st.videoState.playerState ∧
      (forceUpdateState st p now).videoState.isPlaying =
          p.isPlaying.getD st.videoState.isPlaying ∧
      st.videoState.lastUpdate < (forceUpdateState st p now).videoState.lastUpdate) := by
  constructor
  · intro h
    simp [updateState, h, mergeState, hnow]
  · simp [forceUpdateState, mergeState, hnow]

/-- Witness for C2: an authorized write and a forced write at `now = 5` over a
state stamped `0`, patching only `currentTime`. -/
theorem successful_write_merge_lastUpdate_witness :
    ((updateState
        { videoState := initialState 0, activePlayerId := some "b", emitted := [] }
        { currentTime := some 7 } "b" 5).videoState.currentTime = 7 ∧
      (updateState
        { videoState := initialState 0, activePlayerId := some "b", emitted := [] }
        { currentTime := some 7 } "b" 5).videoState.isPlaying = false ∧
      (updateState
        { videoState := initialState 0, activePlayerId := some "b", emitted := [] }
        { currentTime := some 7 } "b" 5).videoState.lastUpdate = 5) ∧
    ((forceUpdateState
        { videoState := initialState 0, activePlayerId := some "a", emitted := [] }
        { currentTime := some 7 } 5).videoState.currentTime = 7 ∧
      (forceUpdateState
        { videoState := initialState 0, activePlayerId := some "a", emitted := [] }
        { currentTime := some 7 } 5).videoState.lastUpdate = 5) := by
  have h := successful_write_merge_lastUpdate
    { videoState := initialState 0, activePlayerId := some "b", emitted := [] }
    { currentTime := some 7 } "b" 5 (by decide)
  have h2 := successful_write_merge_lastUpdate
    { videoState := initialState 0, activePlayerId := some "a", emitted := [] }
    { currentTime := some 7 } "a" 5 (by decide)
  refine ⟨⟨?_, ?_, ?_⟩, ⟨?_, ?_⟩⟩
  · exact (h.1 (by decide)).1
  · exact (h.1 (by decide)).2.2.1
  · decide
  · exact h2.2.1
  · decide

/-- C3: `setActivePlayer(B)` unconditionally overwrites the authority slot
(leaving the snapshot and the publication log untouched — no notification);
afterwards `updateState(_, A)` with `A ≠ B` is a no-op even if `A` held the
slot before, while `updateState(_, B)` merges and publishes. -/
theorem setActivePlayer_overwrites_authority (st : StoreState)
    (pA pB : VideoStatePatch) (A B : String) (nowA nowB : Nat)
    (hAB : A ≠ B) (hB : B ≠ "") :
    (setActivePlayer st B).activePlayerId = some B ∧
    (setActivePlayer st B).videoState = st.videoState ∧
    (setActivePlayer st B).emitted = st.emitted ∧
    updateState (setActivePlayer st B) pA A nowA = setActivePlayer st B ∧
    updateState (setActivePlayer st B) pB B nowB =
      { setActivePlayer st B with
        videoState := mergeState st.videoState pB nowB
        emitted := st.emitted ++ [mergeState st.videoState pB nowB] } := by
  refine ⟨rfl, rfl, rfl, ?_, ?_⟩
  · apply updateState_of_blocked
    simp [setActivePlayer, authorityBlocks, hB, Ne.symm hAB]
  · apply updateState_of_open
    simp [setActivePlayer, authorityBlocks]

/-- Witness for C3 at `A = "a"`, `B = "b"`, starting from a store where `"a"`
held authority. -/
theorem setActivePlayer_overwrites_authority_witness :
    (setActivePlayer
        { videoState := initialState 0, activePlayerId := some "a", emitted := [] }
        "b").activePlayerId = some "b" ∧
    updateState
        (setActivePlayer
          { videoState := initialState 0, activePlayerId := some "a", emitted := [] }
          "b")
        { isPlaying := some true } "a" 5 =
      setActivePlayer
        { videoState := initialState 0, activePlayerId := some "a", emitted := [] }
        "b" :=
  ⟨(setActivePlayer_overwrites_authority
      { videoState := initialState 0, activePlayerId := some "a", emitted := [] }
      { isPlaying := some true } { isPlaying := some true } "a" "b" 5 5
      (by decide) (by decide)).1,
   (setActivePlayer_overwrites_authority
      { videoState := initialState 0, activePlayerId := some "a", emitted := [] }
      { isPlaying := some true } { isPlaying := some true } "a" "b" 5 5
      (by decide) (by decide)).2.2.2.1⟩

/-! ## The player surface (`VideoPlayer` component) -/

/-- The component's `playerConfig` object.  `delete` of a dynamic property is
modelled by setting its `Option` field to `none`. -/
structure PlayerConfig where
  autoplay : Nat := 1
  mute : Nat := 1
  loop : Nat := 1
  listType : Option String := none
  list : Option String := none
  playlist : Option (List String) := none
  index : Nat := 0
  deriving DecidableEq, Repr

/-- The `VideoConfig` handed out by the service. -/
structure VideoConfig where
  videoId : Option String := none
  playlistId : Option String := none
  videoIds : Option (List String) := none
  deriving DecidableEq, Repr

/-- JavaScript `a || b` for an optional string: the default wins when the
value is `null` or `""`. -/
def jsOrDefault (o : Option String) (d : String) : String :=
  match o with
  | none => d
  | some s => if s = "" then d else s

/-- `VideoPlayer.setupPlayerConfig()`: branch on a truthy `playlistId`, else on
`videoIds` with more than one entry, else single-video mode. -/
def setupPlayerConfig (cfg : PlayerConfig) (playlistId : Option String)
    (videoIds : Option (List String)) : PlayerConfig :=
  if jsTruthy playlistId then
    { cfg with listType := some "playlist", list := playlistId, playlist := none }
  else if (videoIds.getD []).length > 1 ∧ videoIds.isSome then
    { cfg with playlist := some (videoIds.getD []).tail, listType := none, list := none }
  else
    { cfg with listType := none, list := none, playlist := none }

/-- `VideoPlayer.getVideoId()`: a non-null, non-empty `videoIds` array wins,
then a truthy `playlistId` yields `""`, else the single `videoId`. -/
def getVideoId (videoIds : Option (List String)) (playlistId : Option String)
    (videoId : String) : String :=
  match videoIds with
  | some (x :: _) => x
  | _ => if jsTruthy playlistId then "" else videoId

/-- Telemetry of the external YouTube engine handle: the values returned by
`getCurrentTime()` and `getPlayerState()`. -/
structure Engine where
  currentTime : Int
  playerState : Int
  deriving DecidableEq, Repr

/-- Side-effecting calls a surface can issue on its engine handle. -/
inductive EngineCmd where
  | seekTo (seconds : Int) (allowSeekAhead : Bool)
  | playVideo
  | pauseVideo
  | mute
  deriving DecidableEq, Repr

/-- The per-surface mutable fields the synchronization core reads. -/
structure Surface where
  isMainPlayer : Bool
  playerId : String
  player : Option Engine := none
  isPlayerReady : Bool := false
  deriving DecidableEq, Repr

/-- `player_${hash}_${timestamp}`: the surface id minted in the constructor. -/
def mkPlayerId (hash timestamp : String) : String :=
  "player_" ++ hash ++ "_" ++ timestamp

/-- The store effect of `VideoPlayer.ngOnInit`: the main surface immediately
claims the authority slot; a follower leaves the store untouched. -/
def ngOnInitStore (isMainPlayer : Bool) (playerId : String) (st : StoreState) :
    StoreState :=
  if isMainPlayer then setActivePlayer st playerId else st

/-- Fixed delays of the component, in milliseconds. -/
def saveStatePeriodMs : Nat := 250
def settleDelayMs : Nat := 500
def playDelayMs : Nat := 200
def initialPlayDelayMs : Nat := 1000
def recoveryDelayMs : Nat := 100

/-- Everything `onPlayerReady` does, made explicit: the updated surface, the
store after the immediate authority step, the scheduler period (main surface
only), the delayed engine commands with their delays, and the one delayed
`updateState` push (its delay, patch, and requester id). -/
structure ReadyResult where
  surface : Surface
  store : StoreState
  schedulerPeriod : Option Nat
  timedCmds : List (Nat × EngineCmd)
  pushDelay : Nat
  pushPatch : VideoStatePatch
  pushId : String
  deriving DecidableEq, Repr

/-- `VideoPlayer.onPlayerReady(event)`: record the handle, mark ready, snapshot
the store; the main surface re-asserts authority and starts the 250 ms tick;
then either the resume branch (`currentTime > 0`: seek after 500 ms, play and
push `isPlaying:true` 200 ms later, follower mutes) or the cold-start branch
(play after 1000 ms and push `{isPlaying:true, playerState:1, currentTime:0}`). -/
def onPlayerReady (surf : Surface) (eng : Engine) (st : StoreState) : ReadyResult :=
  let surf' : Surface := { surf with player := some eng, isPlayerReady := true }
  let resume := getCurrentState st
  let st' := if surf.isMainPlayer then setActivePlayer st surf.playerId else st
  if resume.currentTime > 0 then
    { surface := surf'
      store := st'
      schedulerPeriod := if surf.isMainPlayer then some saveStatePeriodMs else none
      timedCmds :=
        [(settleDelayMs, .seekTo resume.currentTime true)] ++
          (if surf.isMainPlayer then [] else [(settleDelayMs, .mute)]) ++
          [(settleDelayMs + playDelayMs, .playVideo)]
      pushDelay := settleDelayMs + playDelayMs
      pushPatch := { isPlaying := some true }
      pushId := surf.playerId }
  else
    { surface := surf'
      store := st'
      schedulerPeriod := if surf.isMainPlayer then some saveStatePeriodMs else none
      timedCmds := [(initialPlayDelayMs, .playVideo)]
      pushDelay := initialPlayDelayMs
      pushPatch := { currentTime := some 0, playerState := some 1, isPlaying := some true }
      pushId := surf.playerId }

/-- The store once `onPlayerReady`'s delayed push has fired (at clock `now`). -/
def readyFinalStore (surf : Surface) (eng : Engine) (st : StoreState)
    (now : Nat) : StoreState :=
  let r := onPlayerReady surf eng st
  updateState r.store r.pushPatch r.pushId now

/-- One tick of the main surface's `saveStateInterval` callback: read
telemetry, force play unless the engine is `PLAYING` (1) or `ENDED` (0), then
push telemetry through the gated `updateState` under the surface's own id. -/
def saveStateTick (surf : Surface) (st : StoreState) (now : Nat) :
    List EngineCmd × StoreState :=
  match surf.player with
  | some eng =>
    if surf.isPlayerReady then
      ((if eng.playerState ≠ 1 ∧ eng.playerState ≠ 0 then [.playVideo] else []),
        updateState st
          { currentTime := some eng.currentTime
            playerState := some eng.playerState
            isPlaying := some (eng.playerState == 1) }
          surf.playerId now)
    else ([], st)
  | none => ([], st)

/-- `VideoPlayer.onStateChange(event)`: only a ready main surface with a live
handle reacts.  `event.data = 0` (ENDED) triggers the 100 ms recovery: seek to
0, play, and push `{currentTime:0, isPlaying:true, playerState:1}`; any other
code pushes current telemetry immediately. -/
def onStateChange (surf : Surface) (eventData : Int) (st : StoreState)
    (now : Nat) : List (Nat × EngineCmd) × StoreState :=
  match surf.player with
  | some eng =>
    if surf.isMainPlayer ∧ surf.isPlayerReady then
      if eventData = 0 then
        ([(recoveryDelayMs, .seekTo 0 true), (recoveryDelayMs, .playVideo)],
          updateState st
            { currentTime := some 0, isPlaying := some true, playerState := some 1 }
            surf.playerId now)
      else
        ([], updateState st
          { currentTime := some eng.currentTime
            playerState := some eventData
            isPlaying := some (eventData == 1) }
          surf.playerId now)
    else ([], st)
  | none => ([], st)

/-- `VideoPlayer.ngOnDestroy()`: only a surface whose handle exists and is
ready flushes its telemetry with `forceUpdateState` (its patch names
`lastUpdate` explicitly; the merge overrides it with `now` anyway). -/
def ngOnDestroy (surf : Surface) (st : StoreState) (now : Nat) : StoreState :=
  match surf.player with
  | some eng =>
    if surf.isPlayerReady then
      forceUpdateState st
        { currentTime := some eng.currentTime
          playerState := some eng.playerState
          isPlaying := some (eng.playerState == 1)
          lastUpdate := some now }
        now
    else st
  | none => st

/-- `VideoPlayer.syncWith(time, state)`: seek, then play only when
`state = 1` on the main surface, pause when `state = 2`. -/
def syncWith (surf : Surface) (time : Int) (state : Int) : List EngineCmd :=
  match surf.player with
  | some _ =>
    if surf.isPlayerReady then
      [.seekTo time true] ++
        (if state = 1 ∧ surf.isMainPlayer then [.playVideo]
         else if state = 2 then [.pauseVideo] else [])
    else []
  | none => []

/-! ## Media-source resolution (C4) -/

/-- C4 counterexample: with `playlistId = "X"` and `videoIds = ["a","b","c"]`
both set, the claim "the item list is ignored entirely, including for the
primary target item" fails: `setupPlayerConfig` does ignore the list, but
`getVideoId` returns `"a"` (the list's head) instead of behaving as if the
list were absent (which would give `""`, deferring to the playlist). -/
theorem resolver_primary_target_cex :
    ¬ (setupPlayerConfig {} (some "X") (some ["a", "b", "c"]) =
          setupPlayerConfig {} (some "X") none ∧
        getVideoId (some ["a", "b", "c"]) (some "X") "WdxYgjjPSjg" =
          getVideoId none (some "X") "WdxYgjjPSjg") := by
  decide

/-- C4 amended: with a (non-empty) collection id and an item list of length
greater than one both set, the resolved engine configuration does use the
collection id (collection mode, no explicit playlist emitted) and is the same
as if the item list were absent — but the primary target item is still taken
from the item list: `getVideoId` returns its first element. -/
theorem resolver_collection_precedence_amended (cfg : PlayerConfig)
    (plId x videoId : String) (rest : List String)
    (hpl : plId ≠ "") (_hrest : rest ≠ []) :
    setupPlayerConfig cfg (some plId) (some (x :: rest)) =
      { cfg with listType := some "playlist", list := some plId, playlist := none } ∧
    setupPlayerConfig cfg (some plId) (some (x :: rest)) =
      setupPlayerConfig cfg (some plId) none ∧
    getVideoId (some (x :: rest)) (some plId) videoId = x := by
  refine ⟨?_, ?_, rfl⟩ <;> simp [setupPlayerConfig, jsTruthy, hpl]

/-- Witness for the amended C4 at the spec's own example. -/
theorem resolver_collection_precedence_amended_witness :
    setupPlayerConfig {} (some "X") (some ["a", "b", "c"]) =
      { listType := some "playlist", list := some "X", playlist := none } ∧
    getVideoId (some ["a", "b", "c"]) (some "X") "WdxYgjjPSjg" = "a" :=
  ⟨(resolver_collection_precedence_amended {} "X" "a" "WdxYgjjPSjg" ["b", "c"]
      (by decide) (by decide)).1,
   (resolver_collection_precedence_amended {} "X" "a" "WdxYgjjPSjg" ["b", "c"]
      (by decide) (by decide)).2.2⟩

/-! ## Ended-recovery (C5) -/

/-- C5: when a ready main surface that holds the authority token receives
engine state ENDED (0), the recovery path fires after the fixed 100 ms delay:
seek to 0, play, and the store then holds
`{currentTime: 0, isPlaying: true, playerState: PLAYING}`. -/
theorem ended_recovery_store_reflects (surf : Surface) (eng : Engine)
    (st : StoreState) (now : Nat)
    (hp : surf.player = some eng) (hr : surf.isPlayerReady = true)
    (hm : surf.isMainPlayer = true)
    (hauth : st.activePlayerId = some surf.playerId) :
    onStateChange surf 0 st now =
      ([(recoveryDelayMs, .seekTo 0 true), (recoveryDelayMs, .playVideo)],
        { st with
          videoState :=
            { currentTime := 0, playerState := 1, isPlaying := true, lastUpdate := now }
          emitted := st.emitted ++
            [{ currentTime := 0, playerState := 1, isPlaying := true, lastUpdate := now }] }) ∧
    recoveryDelayMs = 100 := by
  refine ⟨?_, rfl⟩
  simp [onStateChange, hp, hr, hm, updateState, authorityBlocks, hauth, mergeState]

/-- Witness for C5: a concrete ready, authoritative main surface at ENDED. -/
theorem ended_recovery_store_reflects_witness :
    onStateChange
        { isMainPlayer := true, playerId := "main1"
          player := some { currentTime := 42, playerState := 0 }
          isPlayerReady := true }
        0
        { videoState := { currentTime := 42, playerState := 1, isPlaying := true, lastUpdate := 3 }
          activePlayerId := some "main1", emitted := [] }
        9 =
      ([(100, .seekTo 0 true), (100, .playVideo)],
        { videoState := { currentTime := 0, playerState := 1, isPlaying := true, lastUpdate := 9 }
          activePlayerId := some "main1"
          emitted := [{ currentTime := 0, playerState := 1, isPlaying := true, lastUpdate := 9 }] }) :=
  (ended_recovery_store_reflects
    { isMainPlayer := true, playerId := "main1"
      player := some { currentTime := 42, playerState := 0 }
      isPlayerReady := true }
    { currentTime := 42, playerState := 0 }
    { videoState := { currentTime := 42, playerState := 1, isPlaying := true, lastUpdate := 3 }
      activePlayerId := some "main1", emitted := [] }
    9 rfl rfl rfl rfl).1

/-! ## Follower resume bootstrap (C6) -/

/-- C6: when a follower surface becomes ready while the store holds
`currentTime > 0`, it seeks to the stored time after the 500 ms settle delay,
mutes its local audio, and after a second, shorter delay (200 ms) plays; the
delayed push sends `isPlaying := true` under the follower's own id; and the
authority token is unchanged both by the ready step and by the final push. -/
theorem follower_resume_seek_play_mute (surf : Surface) (eng : Engine)
    (st : StoreState) (now : Nat)
    (hf : surf.isMainPlayer = false)
    (ht : 0 < st.videoState.currentTime) :
    (onPlayerReady surf eng st).timedCmds =
      [(settleDelayMs, .seekTo st.videoState.currentTime true),
        (settleDelayMs, .mute),
        (settleDelayMs + playDelayMs, .playVideo)] ∧
    playDelayMs < settleDelayMs ∧
    (onPlayerReady surf eng st).pushDelay = settleDelayMs + playDelayMs ∧
    (onPlayerReady surf eng st).pushPatch = { isPlaying := some true } ∧
    (onPlayerReady surf eng st).pushId = surf.playerId ∧
    (onPlayerReady surf eng st).store.activePlayerId = st.activePlayerId ∧
    (readyFinalStore surf eng st now).activePlayerId = st.activePlayerId := by
  refine ⟨?_, by decide, ?_, ?_, ?_, ?_, ?_⟩ <;>
    simp [onPlayerReady, readyFinalStore, getCurrentState, hf, ht,
      updateState_activePlayerId]

/-- Witness for C6 at the spec's scenario: stored `currentTime = 120`, a
follower surface, main authority `"main1"` untouched. -/
theorem follower_resume_seek_play_mute_witness :
    (onPlayerReady { isMainPlayer := false, playerId := "follower1" }
        { currentTime := 0, playerState := -1 }
        { videoState := { currentTime := 120, playerState := 1, isPlaying := true, lastUpdate := 3 }
          activePlayerId := some "main1", emitted := [] }).timedCmds =
      [(500, .seekTo 120 true), (500, .mute), (700, .playVideo)] ∧
    (readyFinalStore { isMainPlayer := false, playerId := "follower1" }
        { currentTime := 0, playerState := -1 }
        { videoState := { currentTime := 120, playerState := 1, isPlaying := true, lastUpdate := 3 }
          activePlayerId := some "main1", emitted := [] }
        9).activePlayerId = some "main1" :=
  ⟨(follower_resume_seek_play_mute { isMainPlayer := false, playerId := "follower1" }
      { currentTime := 0, playerState := -1 }
      { videoState := { currentTime := 120, playerState := 1, isPlaying := true, lastUpdate := 3 }
        activePlayerId := some "main1", emitted := [] }
      9 rfl (by decide)).1,
   (follower_resume_seek_play_mute { isMainPlayer := false, playerId := "follower1" }
      { currentTime := 0, playerState := -1 }
      { videoState := { currentTime := 120, playerState := 1, isPlaying := true, lastUpdate := 3 }
        activePlayerId := some "main1", emitted := [] }
      9 rfl (by decide)).2.2.2.2.2.2⟩

/-! ## Scheduler tick (C7) -/

/-- C7: the main surface's ready handler installs the scheduler with the fixed
250 ms period, and each tick of a ready surface with a live handle issues
`playVideo` exactly when the engine state is neither PLAYING (1) nor ENDED
(0), then pushes `{currentTime, playerState, isPlaying = (state == 1)}`
through the gated `updateState` under the surface's own id. -/
theorem scheduler_tick_spec (surf : Surface) (eng : Engine) (st : StoreState)
    (now : Nat)
    (hp : surf.player = some eng) (hr : surf.isPlayerReady = true)
    (hm : surf.isMainPlayer = true) :
    ((onPlayerReady surf eng st).schedulerPeriod = some saveStatePeriodMs ∧
      saveStatePeriodMs = 250) ∧
    (eng.playerState ≠ 1 ∧ eng.playerState ≠ 0 →
      (saveStateTick surf st now).1 = [.playVideo]) ∧
    (eng.playerState = 1 ∨ eng.playerState = 0 →
      (saveStateTick surf st now).1 = []) ∧
    (saveStateTick surf st now).2 =
      updateState st
        { currentTime := some eng.currentTime
          playerState := some eng.playerState
          isPlaying := some (eng.playerState == 1) }
        surf.playerId now := by
  refine ⟨⟨?_, rfl⟩, ?_, ?_, ?_⟩
  · simp only [onPlayerReady, hm]
    split <;> rfl
  · rintro ⟨h1, h0⟩
    simp [saveStateTick, hp, hr, h1, h0]
  · rintro (h | h) <;> simp [saveStateTick, hp, hr, h]
  · simp [saveStateTick, hp, hr]

/-- Witness for C7 at a buffering engine (state 3): the tick fights the stall
with `playVideo` and pushes telemetry under the surface's own id. -/
theorem scheduler_tick_spec_witness :
    (saveStateTick
        { isMainPlayer := true, playerId := "main1"
          player := some { currentTime := 55, playerState := 3 }
          isPlayerReady := true }
        { videoState := { currentTime := 50, playerState := 1, isPlaying := true, lastUpdate := 3 }
          activePlayerId := some "main1", emitted := [] }
        9).1 = [.playVideo] ∧
    (saveStateTick
        { isMainPlayer := true, playerId := "main1"
          player := some { currentTime := 55, playerState := 3 }
          isPlayerReady := true }
        { videoState := { currentTime := 50, playerState := 1, isPlaying := true, lastUpdate := 3 }
          activePlayerId := some "main1", emitted := [] }
        9).2 =
      updateState
        { videoState := { currentTime := 50, playerState := 1, isPlaying := true, lastUpdate := 3 }
          activePlayerId := some "main1", emitted := [] }
        { currentTime := some 55, playerState := some 3, isPlaying := some false }
        "main1" 9 :=
  ⟨(scheduler_tick_spec
      { isMainPlayer := true, playerId := "main1"
        player := some { currentTime := 55, playerState := 3 }
        isPlayerReady := true }
      { currentTime := 55, playerState := 3 }
      { videoState := { currentTime := 50, playerState := 1, isPlaying := true, lastUpdate := 3 }
        activePlayerId := some "main1", emitted := [] }
      9 rfl rfl rfl).2.1 (by decide),
   (scheduler_tick_spec
      { isMainPlayer := true, playerId := "main1"
        player := some { currentTime := 55, playerState := 3 }
        isPlayerReady := true }
      { currentTime := 55, playerState := 3 }
      { videoState := { currentTime := 50, playerState := 1, isPlaying := true, lastUpdate := 3 }
        activePlayerId := some "main1", emitted := [] }
      9 rfl rfl rfl).2.2.2⟩

/-! ## Null engine handle (C8) -/

/-- C8: with a null engine handle (construction failed, the ready callback
never fired), the destruction flush, state-change handling, and `syncWith`
all issue no engine command and leave the store untouched; every modelled
operation is total, so no error reaches any caller. -/
theorem null_engine_noop (surf : Surface) (st : StoreState) (now : Nat)
    (eventData time state : Int)
    (hp : surf.player = none) :
    ngOnDestroy surf st now = st ∧
    onStateChange surf eventData st now = ([], st) ∧
    syncWith surf time state = [] := by
  refine ⟨?_, ?_, ?_⟩ <;> simp [ngOnDestroy, onStateChange, syncWith, hp]

/-- Witness for C8 on a concrete engine-less main surface. -/
theorem null_engine_noop_witness :
    ngOnDestroy { isMainPlayer := true, playerId := "main1" }
        (initialStore 0) 9 = initialStore 0 ∧
    onStateChange { isMainPlayer := true, playerId := "main1" }
        0 (initialStore 0) 9 = ([], initialStore 0) ∧
    syncWith { isMainPlayer := true, playerId := "main1" } 120 1 = [] :=
  null_engine_noop { isMainPlayer := true, playerId := "main1" }
    (initialStore 0) 9 0 120 1 rfl

/-! ## Destruction flush (C10) -/

/-- C10: every surface with a ready engine handle — follower or main, and
regardless of who holds the authority token — flushes its engine telemetry
through `forceUpdateState` on destruction, so the shared store afterwards
carries that surface's own `currentTime`/`playerState` and the flush is
published. -/
theorem destroy_force_flush (surf : Surface) (eng : Engine) (st : StoreState)
    (now : Nat)
    (hp : surf.player = some eng) (hr : surf.isPlayerReady = true) :
    ngOnDestroy surf st now =
      forceUpdateState st
        { currentTime := some eng.currentTime
          playerState := some eng.playerState
          isPlaying := some (eng.playerState == 1)
          lastUpdate := some now }
        now ∧
    (ngOnDestroy surf st now).videoState.currentTime = eng.currentTime ∧
    (ngOnDestroy surf st now).videoState.playerState = eng.playerState ∧
    (ngOnDestroy surf st now).videoState.isPlaying = (eng.playerState == 1) ∧
    (ngOnDestroy surf st now).emitted =
      st.emitted ++ [(ngOnDestroy surf st now).videoState] := by
  refine ⟨?_, ?_, ?_, ?_, ?_⟩ <;>
    simp [ngOnDestroy, hp, hr, forceUpdateState, mergeState]

/-- Witness for C10: a destroyed follower overwrites the store held by
`"main1"` with its own telemetry (time 77, paused), bypassing the gate. -/
theorem destroy_force_flush_witness :
    (ngOnDestroy
        { isMainPlayer := false, playerId := "follower1"
          player := some { currentTime := 77, playerState := 2 }
          isPlayerReady := true }
        { videoState := { currentTime := 120, playerState := 1, isPlaying := true, lastUpdate := 3 }
          activePlayerId := some "main1", emitted := [] }
        9).videoState.currentTime = 77 ∧
    (ngOnDestroy
        { isMainPlayer := false, playerId := "follower1"
          player := some { currentTime := 77, playerState := 2 }
          isPlayerReady := true }
        { videoState := { currentTime := 120, playerState := 1, isPlaying := true, lastUpdate := 3 }
          activePlayerId := some "main1", emitted := [] }
        9).videoState.isPlaying = false :=
  ⟨(destroy_force_flush
      { isMainPlayer := false, playerId := "follower1"
        player := some { currentTime := 77, playerState := 2 }
        isPlayerReady := true }
      { currentTime := 77, playerState := 2 }
      { videoState := { currentTime := 120, playerState := 1, isPlaying := true, lastUpdate := 3 }
        activePlayerId := some "main1", emitted := [] }
      9 rfl rfl).2.1,
   (destroy_force_flush
      { isMainPlayer := false, playerId := "follower1"
        player := some { currentTime := 77, playerState := 2 }
        isPlayerReady := true }
      { currentTime := 77, playerState := 2 }
      { videoState := { currentTime := 120, playerState := 1, isPlaying := true, lastUpdate := 3 }
        activePlayerId := some "main1", emitted := [] }
      9 rfl rfl).2.2.2.1⟩

/-! ## Authority is never cleared (C9) -/

/-- The constructor's surface id `player_${hash}_${timestamp}` is never the
empty string. -/
theorem mkPlayerId_ne_empty (h t : String) : mkPlayerId h t ≠ "" := by
  intro heq
  have hlen := congrArg String.length heq
  simp [mkPlayerId, String.length_append] at hlen
  exact absurd hlen.1.2 (by decide)

/-- Every mutating entry point of `VideoStateService`. -/
inductive StoreOp where
  | update (p : VideoStatePatch) (id : String) (now : Nat)
  | force (p : VideoStatePatch) (now : Nat)
  | setActive (id : String)
  | saveTime (t : Int) (id : String) (now : Nat)
  | saveState (ps : Int) (b : Bool) (id : String) (now : Nat)
  deriving DecidableEq, Repr

/-- Interpretation of a store operation on the service state. -/
def applyOp (st : StoreState) : StoreOp → StoreState
  | .update p id now => updateState st p id now
  | .force p now => forceUpdateState st p now
  | .setActive id => setActivePlayer st id
  | .saveTime t id now => saveCurrentTime st t id now
  | .saveState ps b id now => savePlayerState st ps b id now

/-- A sequence of store operations, applied in order. -/
def applyOps (st : StoreState) (ops : List StoreOp) : StoreState :=
  ops.foldl applyOp st

/-- Operations as surfaces actually issue them: `setActivePlayer` is only ever
called with a surface's own `player_..._...` id, which is non-empty. -/
def surfaceIssued : StoreOp → Bool
  | .setActive id => id != ""
  | _ => true

/-- Helper: one surface-issued operation keeps the authority slot holding a
non-empty id. -/
theorem applyOp_auth_nonempty (st : StoreState) (op : StoreOp) (a : String)
    (h1 : st.activePlayerId = some a) (h2 : a ≠ "")
    (hop : surfaceIssued op = true) :
    ∃ b, b ≠ "" ∧ (applyOp st op).activePlayerId = some b := by
  cases op with
  | update p id now =>
    exact ⟨a, h2, by rw [applyOp, updateState_activePlayerId, h1]⟩
  | force p now =>
    exact ⟨a, h2, by rw [applyOp, forceUpdateState_activePlayerId, h1]⟩
  | setActive id =>
    refine ⟨id, ?_, rfl⟩
    simpa [surfaceIssued] using hop
  | saveTime t id now =>
    exact ⟨a, h2, by rw [applyOp, saveCurrentTime, updateState_activePlayerId, h1]⟩
  | saveState ps b id now =>
    exact ⟨a, h2, by rw [applyOp, savePlayerState, updateState_activePlayerId, h1]⟩

/-- Helper: the invariant extends to arbitrary surface-issued sequences. -/
theorem applyOps_auth_nonempty (ops : List StoreOp) :
    ∀ st a, st.activePlayerId = some a → a ≠ "" →
      (∀ op ∈ ops, surfaceIssued op = true) →
      ∃ b, b ≠ "" ∧ (applyOps st ops).activePlayerId = some b := by
  induction ops with
  | nil =>
    intro st a h1 h2 _
    exact ⟨a, h2, h1⟩
  | cons op rest ih =>
    intro st a h1 h2 hops
    obtain ⟨b, hb, hb2⟩ := applyOp_auth_nonempty st op a h1 h2 (hops op (by simp))
    exact ih (applyOp st op) b hb2 hb (fun o ho => hops o (by simp [ho]))

/-- C9: once the first main surface's `ngOnInit` sets the authority slot to
its (non-empty) `player_..._...` id, no sequence of surface-issued store
operations ever returns the slot to an empty value; consequently the
token-empty acceptance path of `updateState` is unreachable and every gated
write from an id other than the current token is a no-op. -/
theorem authority_never_cleared (st0 : StoreState) (hash timestamp : String)
    (ops : List StoreOp) (hops : ∀ op ∈ ops, surfaceIssued op = true) :
    ∃ b, b ≠ "" ∧
      (applyOps (ngOnInitStore true (mkPlayerId hash timestamp) st0) ops).activePlayerId =
        some b ∧
      ∀ p id now, id ≠ b →
        updateState (applyOps (ngOnInitStore true (mkPlayerId hash timestamp) st0) ops)
            p id now =
          applyOps (ngOnInitStore true (mkPlayerId hash timestamp) st0) ops := by
  obtain ⟨b, hb, hb2⟩ :=
    applyOps_auth_nonempty ops
      (ngOnInitStore true (mkPlayerId hash timestamp) st0)
      (mkPlayerId hash timestamp)
      (by simp [ngOnInitStore, setActivePlayer])
      (mkPlayerId_ne_empty hash timestamp) hops
  refine ⟨b, hb, hb2, ?_⟩
  intro p id now hid
  apply updateState_of_blocked
  simp [hb2, authorityBlocks, hb, Ne.symm hid]

/-- Witness for C9: after the first main surface claims authority, an intruder
write, a handover to `"player2"`, and a forced write leave the slot non-empty
and strictly matched. -/
theorem authority_never_cleared_witness :
    ∃ b, b ≠ "" ∧
      (applyOps (ngOnInitStore true (mkPlayerId "abc" "123") (initialStore 0))
          [StoreOp.update { isPlaying := some true } "intruder" 5,
            StoreOp.setActive "player2",
            StoreOp.force { currentTime := some 7 } 6]).activePlayerId = some b ∧
      ∀ p id now, id ≠ b →
        updateState
            (applyOps (ngOnInitStore true (mkPlayerId "abc" "123") (initialStore 0))
              [StoreOp.update { isPlaying := some true } "intruder" 5,
                StoreOp.setActive "player2",
                StoreOp.force { currentTime := some 7 } 6])
            p id now =
          applyOps (ngOnInitStore true (mkPlayerId "abc" "123") (initialStore 0))
            [StoreOp.update { isPlaying := some true } "intruder" 5,
              StoreOp.setActive "player2",
              StoreOp.force { currentTime := some 7 } 6] :=
  authority_never_cleared (initialStore 0) "abc" "123"
    [StoreOp.update { isPlaying := some true } "intruder" 5,
      StoreOp.setActive "player2",
      StoreOp.force { currentTime := some 7 } 6]
    (by decide)
